import Mathlib

/-
Verification of the purchase-to-invoice-to-settlement pipeline of the
Mechinweb IT-services platform.

The development shallowly embeds the pipeline's components:
  * `ServiceManager.resolveServiceId` / `createServiceMapping` / `getServiceById`
    (src/unnamed/part_008, class ServiceManager),
  * `PaymentService.createPaymentIntent` / `calculateCurrencyAmounts` /
    `createZohoInvoice` (src/unnamed/part_008, class PaymentService),
  * the Zoho webhook handlers `handlePaymentReceived`,
    `handleInvoiceStatusChange` and the HTTP `handler`
    (src/netlify/functions/zohoWebhook.js),
  * the customer creation/lookup helpers `createZohoCustomer` /
    `findZohoCustomer` and the invoice line-item construction
    (src/netlify/functions/zohoIntegration.js),
  * the persistence-layer trigger function `validate_order_data`
    (src/unnamed/part_006).

Machine floats of the source are modelled as rationals; `Number.toFixed(2)`
is modelled by `round2`.  Database tables are modelled as in-memory lists;
a supabase `update(...).eq(...)` is a map over the list, and `.single()`
succeeds exactly when the filtered row set is a singleton (PostgREST
reports any other cardinality as an error).  External HTTP collaborators
(auth, rate source, Zoho) enter as explicit parameters recording their
responses.
-/

deriving instance DecidableEq for Except

/-- Membership test for an ASCII hexadecimal digit, as accepted by the
`[0-9a-f]` character class with the case-insensitive regex flag. -/
def isHexChar (c : Char) : Bool :=
  c.isDigit || ('a' ≤ c && c ≤ 'f') || ('A' ≤ c && c ≤ 'F')

/-- Occurrence of `needle` as a contiguous run inside `hay` (character lists). -/
def subOccurs (needle : List Char) : List Char → Bool
  | [] => needle.isEmpty
  | c :: t => needle.isPrefixOf (c :: t) || subOccurs needle t

/-- JavaScript `hay.includes(needle)` on strings. -/
def containsSub (hay needle : String) : Bool :=
  subOccurs needle.data hay.data

/-- JavaScript `s.toLowerCase()` on the ASCII names of the catalog. -/
def lowerString (s : String) : String :=
  String.mk (s.data.map Char.toLower)

/-- The UUID shape accepted by the `uuidRegex` of `ServiceManager.resolveServiceId`
and `getServiceById` (src/unnamed/part_008):
`[0-9a-f]{8}-[0-9a-f]{4}-[1-5][0-9a-f]{3}-[89ab][0-9a-f]{3}-[0-9a-f]{12}`,
case-insensitive. -/
def uuidShape (s : String) : Bool :=
  let cs := s.data
  cs.length == 36 &&
  (List.range 36).all (fun i =>
    match cs.get? i with
    | none => false
    | some c =>
      if i == 8 || i == 13 || i == 18 || i == 23 then c == '-'
      else if i == 14 then '1' ≤ c && c ≤ '5'
      else if i == 19 then c == '8' || c == '9' || c == 'a' || c == 'b' || c == 'A' || c == 'B'
      else isHexChar c)

/-- Per-tier pricing of a catalog service (`ServiceData.pricing` in
src/unnamed/part_008); any subset of tiers may be present. -/
structure Pricing where
  basic : Option ℚ
  standard : Option ℚ
  enterprise : Option ℚ
deriving DecidableEq

/-- JavaScript property access `pricing[packageType]` on the pricing record:
keys other than the three tiers read as `undefined`. -/
def pricingGet (p : Pricing) (k : String) : Option ℚ :=
  if k = "basic" then p.basic
  else if k = "standard" then p.standard
  else if k = "enterprise" then p.enterprise
  else none

/-- A catalog service row (`ServiceData` in src/unnamed/part_008; the
`description`, `features` and `created_at` fields are never consulted by the
purchase pipeline and are omitted). -/
structure ServiceData where
  id : String
  name : String
  category : String
  pricing : Pricing
deriving DecidableEq

/-- The alias keys a catalog entry populates in
`ServiceManager.createServiceMapping` (src/unnamed/part_008): each `if` is
independent, conditions test lowercase substrings of the display name, and
the `domain`/`email` conjunction binds tighter than the disjunctions, as in
the source. -/
def aliasKeys (svc : ServiceData) : List String :=
  let name := lowerString svc.name
  (if containsSub name "email migration" || containsSub name "email setup" then
    ["email-migration", "email_migration", "email-setup"] else []) ++
  (if containsSub name "email deliverability" || containsSub name "email security" ||
      (containsSub name "domain" && containsSub name "email") then
    ["email-deliverability", "email_security", "domain-email-security"] else []) ++
  (if containsSub name "ssl" || containsSub name "https" then
    ["ssl-setup", "ssl_setup", "https-setup"] else []) ++
  (if containsSub name "cloud suite" || containsSub name "cloud management" then
    ["cloud-management", "cloud_management", "cloud-suite"] else []) ++
  (if containsSub name "data migration" || containsSub name "cloud data" then
    ["data-migration", "data_migration", "cloud-data-migration"] else []) ++
  (if containsSub name "hosting" || containsSub name "control panel" then
    ["hosting-support", "hosting_support", "control-panel-support"] else []) ++
  (if containsSub name "acronis" then
    ["acronis-setup", "acronis_setup", "acronis-backup"] else []) ++
  (if containsSub name "per incident" || containsSub name "incident support" then
    ["per-incident-support", "per_incident_support", "incident-support"] else [])

/-- `ServiceManager.createServiceMapping` (src/unnamed/part_008): the slug → id
map built by scanning every catalog entry; a later entry overwrites an earlier
binding of the same key, as consecutive JavaScript assignments do. -/
def createServiceMapping (catalog : List ServiceData) (k : String) : Option String :=
  catalog.foldl (fun acc svc => if k ∈ aliasKeys svc then some svc.id else acc) none

/-- `ServiceManager.resolveServiceId` (src/unnamed/part_008).
`uuidQueryErr` records a datastore error on the UUID existence query
(the source logs it and returns `null`); `listErr` records a failure of
`getAllServices` inside `createServiceMapping` (the source catches it and
returns the empty mapping). -/
def resolveServiceId (catalog : List ServiceData) (uuidQueryErr listErr : Bool)
    (serviceIdentifier : String) : Option String :=
  if uuidShape serviceIdentifier then
    if uuidQueryErr then none
    else if catalog.any (fun s => s.id == serviceIdentifier) then some serviceIdentifier
    else none
  else
    if listErr then none
    else createServiceMapping catalog serviceIdentifier

/-- `ServiceManager.getServiceById` (src/unnamed/part_008): rejects non-UUID
identifiers, then looks the id up in the services table (`maybeSingle`). -/
def getServiceById (catalog : List ServiceData) (serviceId : String) : Option ServiceData :=
  if uuidShape serviceId then catalog.find? (fun s => s.id == serviceId) else none

/-- A row of the `orders` table, with the columns the purchase pipeline reads
or writes (src/unnamed/part_008 `OrderData` plus the webhook updates). -/
structure OrderRow where
  id : Nat
  client_id : Nat
  service_id : String
  package_type : String
  amount_usd : ℚ
  amount_inr : ℚ
  amount_aud : ℚ
  currency : String
  status : String
  zoho_invoice_id : Option String
  zoho_customer_id : Option String
deriving DecidableEq

/-- A row of the `invoices` table as inserted by `handlePaymentReceived`
(src/netlify/functions/zohoWebhook.js, lines 77-90). -/
structure InvoiceRow where
  order_id : Nat
  client_id : Nat
  invoice_number : Option String
  amount_usd : ℚ
  amount_inr : ℚ
  amount_aud : ℚ
  currency : String
  total_amount : Option ℚ
  status : String
deriving DecidableEq

/-- A row of the `notifications` table as inserted by `handlePaymentReceived`
(src/netlify/functions/zohoWebhook.js, lines 99-107); `ntype` is the `type`
column. -/
structure NotificationRow where
  client_id : Nat
  title : String
  message : String
  ntype : String
  read : Bool
deriving DecidableEq

/-- The datastore state touched by the webhook reconciler: the three mutated
tables plus the read-only `services` name join used in the notification
message. -/
structure Db where
  orders : List OrderRow
  invoices : List InvoiceRow
  notifications : List NotificationRow
  serviceNames : List (String × String)
deriving DecidableEq

/-- The `data` object of a Zoho webhook body
(src/netlify/functions/zohoWebhook.js); every field may be absent. -/
structure WebhookData where
  invoice_id : Option String
  invoice_number : Option String
  total : Option ℚ
  status : Option String
  payment_date : Option String
deriving DecidableEq

/-- A parsed webhook body: `event_type` and `data` may each be absent. -/
structure WebhookBody where
  event_type : Option String
  data : Option WebhookData
deriving DecidableEq

/-- The supabase filter `.eq('zoho_invoice_id', invoice_id)`: a row matches
when the event carries an invoice id equal to the row's linked invoice id
(a missing id matches no row). -/
def matchesInvoice (inv : Option String) (o : OrderRow) : Bool :=
  match inv with
  | some s => o.zoho_invoice_id == some s
  | none => false

/-- `handlePaymentReceived` (src/netlify/functions/zohoWebhook.js, lines
43-130).  The `orders` update is applied first and `.single()` is evaluated on
the returned rows: it succeeds exactly on a one-row result, and PostgREST
reports any other cardinality as an error, which the function throws — note
the `if (!order)` log-and-ignore branch of the source is unreachable after a
successful `.single()`.  The invoice-record insert and the notification
insert are best-effort: their errors (`invoiceInsertErr`, `notifInsertErr`)
are only logged.  The confirmation email is an external fire-and-forget call
whose failure is swallowed, so it does not appear in the state.  The returned
Boolean is `false` when the function throws. -/
def handlePaymentReceived (db : Db) (d : WebhookData)
    (invoiceInsertErr notifInsertErr : Bool) : Db × Bool :=
  let updated := db.orders.map (fun o =>
    if matchesInvoice d.invoice_id o then { o with status := "paid" } else o)
  match updated.filter (matchesInvoice d.invoice_id) with
  | [order] =>
    let db1 : Db := { db with orders := updated }
    let db2 : Db :=
      if invoiceInsertErr then db1
      else { db1 with invoices := db1.invoices ++
        [{ order_id := order.id, client_id := order.client_id,
           invoice_number := d.invoice_number, amount_usd := order.amount_usd,
           amount_inr := order.amount_inr, amount_aud := order.amount_aud,
           currency := order.currency, total_amount := d.total,
           status := "paid" }] }
    let db3 : Db :=
      if notifInsertErr then db2
      else { db2 with notifications := db2.notifications ++
        [{ client_id := order.client_id, title := "Payment Confirmed",
           message := "Payment received for " ++
             ((db.serviceNames.lookup order.service_id).getD "undefined") ++
             ". Your service will begin shortly.",
           ntype := "success", read := false }] }
    (db3, true)
  | _ => ({ db with orders := updated }, false)

/-- The `switch` of `handleInvoiceStatusChange` mapping the Zoho invoice
status to an order status (src/netlify/functions/zohoWebhook.js, lines
142-157); the variable is initialised to `pending`, so unknown or missing
statuses stay `pending`. -/
def mapZohoStatus (s : Option String) : String :=
  match s with
  | some "paid" => "paid"
  | some "overdue" => "pending"
  | some "cancelled" => "cancelled"
  | some "sent" => "pending"
  | _ => "pending"

/-- `handleInvoiceStatusChange` (src/netlify/functions/zohoWebhook.js, lines
133-181): maps the provider status and updates every matching order row
unconditionally; no row cardinality check is performed. -/
def handleInvoiceStatusChange (db : Db) (d : WebhookData) : Db × Bool :=
  let orderStatus := mapZohoStatus d.status
  ({ db with orders := db.orders.map (fun o =>
      if matchesInvoice d.invoice_id o then { o with status := orderStatus } else o) },
   true)

/-- The webhook HTTP `handler` (src/netlify/functions/zohoWebhook.js, lines
184-282), returning the new datastore state and the HTTP status code.
`body = none` stands for a request body that fails `JSON.parse` (the thrown
parse error yields 500).  A missing or empty `event_type`, or a missing
`data`, throws `Invalid webhook data structure` (500).  Recognised events are
routed; `invoice_created` and unknown event types are only logged and then
acknowledged with 200.  A throw inside a routed handler is caught and
answered with 500. -/
def webhookHandler (db : Db) (httpMethod : String) (body : Option WebhookBody)
    (invoiceInsertErr notifInsertErr : Bool) : Db × Nat :=
  if httpMethod = "OPTIONS" then (db, 200)
  else if httpMethod ≠ "POST" then (db, 405)
  else
    match body with
    | none => (db, 500)
    | some wd =>
      match wd.event_type, wd.data with
      | none, _ => (db, 500)
      | some "", _ => (db, 500)
      | some _, none => (db, 500)
      | some et, some d =>
        if et = "invoice_payment_received" then
          let r := handlePaymentReceived db d invoiceInsertErr notifInsertErr
          (r.1, if r.2 then 200 else 500)
        else if et = "invoice_status_changed" then
          let r := handleInvoiceStatusChange db d
          (r.1, if r.2 then 200 else 500)
        else (db, 200)

/-- `Number.toFixed(2)` followed by `parseFloat`, on non-negative monetary
amounts: rounding to two decimal places, ties upward. -/
def round2 (q : ℚ) : ℚ :=
  (⌊q * 100 + 1 / 2⌋ : ℚ) / 100

/-- Modelled from the spec: `convertCurrency` lives in `src/utils/currency`,
which is not among the provided sources; only its import sites are.  Per
§4.1 of the spec: `convert(amount, from, to)` returns `amount` unchanged when
`from == to`; on rate-source failure it falls back to returning the original
amount unconverted rather than failing the caller; otherwise it applies the
source's rate.  `rates = none` is the rate-source outage. -/
def convertCurrency (rates : Option (String → String → ℚ)) (amount : ℚ)
    (src dst : String) : ℚ :=
  if src = dst then amount
  else
    match rates with
    | none => amount
    | some r => amount * r src dst

/-- The three fixed per-currency amounts stored on an order. -/
structure CurrencyAmounts where
  usd : ℚ
  inr : ℚ
  aud : ℚ
deriving DecidableEq

/-- `PaymentService.calculateCurrencyAmounts` (src/unnamed/part_008, lines
395-422): each variable starts at the caller-supplied amount, the two
non-chosen currencies are overwritten by conversions from the chosen one, and
all three results pass through `toFixed(2)`.  With `convertCurrency` total
(it degrades gracefully instead of throwing, per §4.1), the `catch` branch of
the source — which would return the raw amount for all three currencies — is
unreachable. -/
def calculateCurrencyAmounts (rates : Option (String → String → ℚ))
    (amount : ℚ) (currency : String) : CurrencyAmounts :=
  let usd := amount
  let inr := amount
  let aud := amount
  let triple : ℚ × ℚ × ℚ :=
    if currency = "USD" then
      (usd, convertCurrency rates amount "USD" "INR", convertCurrency rates amount "USD" "AUD")
    else if currency = "INR" then
      (convertCurrency rates amount "INR" "USD", inr, convertCurrency rates amount "INR" "AUD")
    else if currency = "AUD" then
      (convertCurrency rates amount "AUD" "USD", convertCurrency rates amount "AUD" "INR", aud)
    else (usd, inr, aud)
  { usd := round2 triple.1, inr := round2 triple.2.1, aud := round2 triple.2.2 }

/-- The authenticated supabase user consulted by `createPaymentIntent`
(`supabase.auth.getUser()`). -/
structure UserRec where
  id : Nat
  email : String
  email_confirmed_at : Option String
deriving DecidableEq

/-- A row of the `clients` table as read by `createPaymentIntent`. -/
structure ClientRec where
  id : Nat
  name : String
  email : String
  phone : Option String
  company : Option String
deriving DecidableEq

/-- The fields returned by the Zoho integration for a created invoice
(src/unnamed/part_008, `createZohoInvoice` result before the transaction id
is attached). -/
structure ZohoRes where
  invoice_id : String
  invoice_number : String
  payment_url : String
  total : ℚ
  status : String
  customer_id : String
deriving DecidableEq

/-- The value returned by `PaymentService.createPaymentIntent`
(`PaymentIntent` in src/unnamed/part_008). -/
structure PaymentIntentRes where
  invoice_id : String
  invoice_number : String
  payment_url : String
  total : ℚ
  status : String
  customer_id : String
  transaction_id : String
deriving DecidableEq

/-- One entry of the `serviceItems` array built by
`PaymentService.createZohoInvoice` (src/unnamed/part_008, lines 264-272). -/
structure ServiceItem where
  serviceId : String
  serviceName : String
  packageType : String
  quantity : ℚ
  unitPrice : ℚ
  totalPrice : ℚ
deriving DecidableEq

/-- The payload `createZohoInvoice` posts to the Zoho integration function
(customer data, service items and currency; the free-text `notes` field is
omitted). -/
structure ZohoRequest where
  customerName : String
  customerEmail : String
  serviceItems : List ServiceItem
  currency : String
deriving DecidableEq

/-- One entry of the `line_items` array sent to the Zoho invoices API
(src/netlify/functions/zohoIntegration.js, lines 261-267). -/
structure LineItem where
  name : String
  description : String
  rate : ℚ
  quantity : ℚ
  item_total : ℚ
deriving DecidableEq

/-- The `line_items` construction of `createZohoInvoice`
(src/netlify/functions/zohoIntegration.js, lines 261-267): `rate` is the
item's unit price and `item_total` its total price, copied verbatim from the
service items. -/
def toLineItems (items : List ServiceItem) : List LineItem :=
  items.map fun it =>
    { name := it.serviceName,
      description := it.serviceName ++ " - " ++ it.packageType ++
        " Package (Quantity: " ++ toString it.quantity ++ ")",
      rate := it.unitPrice,
      quantity := it.quantity,
      item_total := it.totalPrice }

/-- The ternary chain of `PaymentService.createZohoInvoice`
(src/unnamed/part_008, lines 260-261) picking the order amount in the
order's own currency; any currency other than USD and INR falls through to
the AUD amount. -/
def chosenUnitPrice (o : OrderRow) : ℚ :=
  if o.currency = "USD" then o.amount_usd
  else if o.currency = "INR" then o.amount_inr
  else o.amount_aud

/-- The order row inserted by step 6 of `createPaymentIntent`
(src/unnamed/part_008, lines 152-171): status `pending`, Zoho linking fields
not yet set; the generated row id is supplied by the datastore. -/
def newOrderRow (newOrderId : Nat) (userId : Nat) (serviceId packageType : String)
    (amounts : CurrencyAmounts) (currency : String) : OrderRow :=
  { id := newOrderId, client_id := userId, service_id := serviceId,
    package_type := packageType, amount_usd := amounts.usd,
    amount_inr := amounts.inr, amount_aud := amounts.aud,
    currency := currency, status := "pending",
    zoho_invoice_id := none, zoho_customer_id := none }

/-- The message shaping applied to an order-insert failure
(src/unnamed/part_008, lines 173-183). -/
def orderInsertMessage (m : String) : String :=
  if containsSub m "does not exist" then
    "Database schema error: Missing required columns. Please contact support."
  else if containsSub m "RI_ConstraintTrigger" then
    "Database constraint error. Please try again or contact support."
  else "Failed to create order: " ++ m

/-- The responses of the external collaborators consulted by one
`createPaymentIntent` call: the auth user, the services table, the clients
table, the currency rate source, the order insert and update, and the Zoho
integration call. -/
structure PIEnv where
  userErr : Bool
  user : Option UserRec
  catalog : List ServiceData
  uuidQueryErr : Bool
  listErr : Bool
  clientErr : Bool
  clientProfile : Option ClientRec
  rates : Option (String → String → ℚ)
  orderInsertErr : Option String
  zoho : Except String ZohoRes
  updateErr : Bool

/-- The observable outcome of a `createPaymentIntent` call: the returned
value or thrown error, the resulting `orders` table, and the payload sent to
the Zoho integration (none when the call aborted before reaching it). -/
structure PIResult where
  outcome : Except String PaymentIntentRes
  orders : List OrderRow
  zohoRequest : Option ZohoRequest

/-- `PaymentService.createPaymentIntent` (src/unnamed/part_008, lines
41-233) composed with `PaymentService.createZohoInvoice` (lines 236-345):
authentication and email verification, service resolution, package
validation, client profile load, currency amounts, order insert, the Zoho
customer/invoice call, and the best-effort linking update whose failure is
only logged.  `tid` is the generated transaction id and `newOrderId` the row
id minted by the datastore for the insert. -/
def createPaymentIntent (env : PIEnv) (orders : List OrderRow) (tid : String)
    (newOrderId : Nat) (serviceIdentifier packageType : String)
    (totalPrice : ℚ) (currency : String) (quantity : ℚ) : PIResult :=
  if env.userErr then
    { outcome := .error "Authentication required. Please log in to continue.",
      orders := orders, zohoRequest := none }
  else
    match env.user with
    | none =>
      { outcome := .error "Authentication required. Please log in to continue.",
        orders := orders, zohoRequest := none }
    | some user =>
      match user.email_confirmed_at with
      | none =>
        { outcome := .error "Email verification required. Please verify your email before making purchases.",
          orders := orders, zohoRequest := none }
      | some _ =>
        match resolveServiceId env.catalog env.uuidQueryErr env.listErr serviceIdentifier with
        | none =>
          { outcome := .error ("Service not found: " ++ serviceIdentifier ++
              ". Please check the service ID and try again."),
            orders := orders, zohoRequest := none }
        | some serviceId =>
          match getServiceById env.catalog serviceId with
          | none =>
            { outcome := .error ("Service data not found for ID: " ++ serviceId),
              orders := orders, zohoRequest := none }
          | some service =>
            if (pricingGet service.pricing packageType).getD 0 = 0 then
              { outcome := .error ("Package type \"" ++ packageType ++
                  "\" not available for " ++ service.name),
                orders := orders, zohoRequest := none }
            else if env.clientErr then
              { outcome := .error "Failed to load client profile. Please try again.",
                orders := orders, zohoRequest := none }
            else
              match env.clientProfile with
              | none =>
                { outcome := .error "Client profile not found. Please complete your profile setup.",
                  orders := orders, zohoRequest := none }
              | some client =>
                let amounts := calculateCurrencyAmounts env.rates totalPrice currency
                let row := newOrderRow newOrderId user.id serviceId packageType amounts currency
                match env.orderInsertErr with
                | some m =>
                  { outcome := .error (orderInsertMessage m),
                    orders := orders, zohoRequest := none }
                | none =>
                  let orders1 := orders ++ [row]
                  let unitPrice := chosenUnitPrice row
                  let item : ServiceItem :=
                    { serviceId := service.id, serviceName := service.name,
                      packageType := row.package_type, quantity := quantity,
                      unitPrice := unitPrice / quantity, totalPrice := unitPrice }
                  let req : ZohoRequest :=
                    { customerName := client.name, customerEmail := client.email,
                      serviceItems := [item], currency := row.currency }
                  match env.zoho with
                  | .error m =>
                    { outcome := .error m, orders := orders1, zohoRequest := some req }
                  | .ok z =>
                    let orders2 :=
                      if env.updateErr then orders1
                      else orders1.map (fun o =>
                        if o.id == newOrderId then
                          { o with zoho_invoice_id := some z.invoice_id,
                                   zoho_customer_id := some z.customer_id }
                        else o)
                    let intent : PaymentIntentRes :=
                      { invoice_id := z.invoice_id,
                        invoice_number := z.invoice_number,
                        payment_url := z.payment_url, total := z.total,
                        status := z.status, customer_id := z.customer_id,
                        transaction_id := tid }
                    { outcome := .ok intent, orders := orders2, zohoRequest := some req }

/-- The persistence-layer trigger function `validate_order_data`
(src/unnamed/part_006, lines 73-100), fired before every insert or update on
`orders`: it requires an existing service reference, an existing client
reference, a package type among the three tiers, and positive `amount_usd`
and `amount_inr`; `amount_aud` is not examined. -/
def validate_order_data (serviceIds : List String) (clientIds : List Nat)
    (o : OrderRow) : Except String Unit :=
  if ¬ serviceIds.contains o.service_id then
    .error "Service does not exist"
  else if ¬ clientIds.contains o.client_id then
    .error "Client does not exist"
  else if ¬ (o.package_type = "basic" ∨ o.package_type = "standard" ∨ o.package_type = "enterprise") then
    .error "Invalid package type"
  else if o.amount_usd ≤ 0 ∨ o.amount_inr ≤ 0 then
    .error "Order amounts must be positive"
  else .ok ()

/-- A Zoho contact record as projected by the customer helpers
(src/netlify/functions/zohoIntegration.js). -/
structure ZohoContact where
  contact_id : String
  contact_name : String
  email : String
  company_name : String
deriving DecidableEq

/-- The provider's response to the contact-creation POST: either the created
contact, or an HTTP failure with its status code and the provider's error
message (either may be missing on a transport failure). -/
inductive ZohoCreateOutcome where
  | created (c : ZohoContact)
  | failed (status : Option Nat) (message : Option String)
deriving DecidableEq

/-- `findZohoCustomer` (src/netlify/functions/zohoIntegration.js, lines
212-254): `resp` is the provider's contact list filtered by email (or a
transport error); the first contact is returned, an empty list throws
`Customer not found`, and every failure is rethrown with the
`Customer lookup failed` prefix. -/
def findZohoCustomer (resp : Except String (List ZohoContact)) : Except String ZohoContact :=
  match resp with
  | .error m => .error ("Customer lookup failed: " ++ m)
  | .ok (c :: _) => .ok c
  | .ok [] => .error "Customer lookup failed: Customer not found"

/-- `createZohoCustomer` (src/netlify/functions/zohoIntegration.js, lines
155-209): attempts creation; when the provider answers 400 with a message
containing `already exists`, falls back to `findZohoCustomer`; any other
failure is surfaced as `Customer creation failed` carrying the provider
message when present. -/
def createZohoCustomer (createResp : ZohoCreateOutcome)
    (findResp : Except String (List ZohoContact)) : Except String ZohoContact :=
  match createResp with
  | .created c => .ok c
  | .failed status message =>
    if status == some 400 && containsSub (message.getD "") "already exists" then
      findZohoCustomer findResp
    else
      .error ("Customer creation failed: " ++ (message.getD "request failed"))

/-- A pending order linked to Zoho invoice `inv1`, as created by a purchase
of the standard SSL package. -/
def order1 : OrderRow :=
  { id := 1, client_id := 7, service_id := "ssl-setup", package_type := "standard",
    amount_usd := 10, amount_inr := 830, amount_aud := 15, currency := "USD",
    status := "pending", zoho_invoice_id := some "inv1",
    zoho_customer_id := some "cust1" }

/-- A datastore holding exactly the pending order `order1` and the service
name row joined by the webhook. -/
def db0 : Db :=
  { orders := [order1], invoices := [], notifications := [],
    serviceNames := [("ssl-setup", "SSL & HTTPS Setup")] }

/-- The payload of an `invoice_payment_received` event for invoice `inv1`. -/
def paymentEvt : WebhookData :=
  { invoice_id := some "inv1", invoice_number := some "INV-100",
    total := some 10, status := none, payment_date := none }

/-- C1: the claim asserts that re-handling the same payment-received event is
idempotent on the receipt and notification stores.  The code refutes it:
`handlePaymentReceived` keys neither the invoice-record insert nor the
notification insert off the order or invoice id, so the second delivery of
the same event re-inserts both.  The status transition alone is idempotent:
after either delivery the single order is `paid`.  This theorem evaluates the
two consecutive deliveries: the first leaves one invoice record and one
notification, the second leaves two of each. -/
theorem C1_duplicate_receipt_rows :
    (((handlePaymentReceived db0 paymentEvt false false).1.orders.map OrderRow.status = ["paid"]) ∧
      (handlePaymentReceived db0 paymentEvt false false).1.invoices.length = 1 ∧
      (handlePaymentReceived db0 paymentEvt false false).1.notifications.length = 1) ∧
    (((handlePaymentReceived (handlePaymentReceived db0 paymentEvt false false).1
        paymentEvt false false).1.orders.map OrderRow.status = ["paid"]) ∧
      (handlePaymentReceived (handlePaymentReceived db0 paymentEvt false false).1
        paymentEvt false false).1.invoices.length = 2 ∧
      (handlePaymentReceived (handlePaymentReceived db0 paymentEvt false false).1
        paymentEvt false false).1.notifications.length = 2) := by decide

/-- The datastore of `db0` with the order already settled (`paid`). -/
def dbPaid : Db := { db0 with orders := [{ order1 with status := "paid" }] }

/-- The datastore of `db0` with the order cancelled. -/
def dbCancelled : Db := { db0 with orders := [{ order1 with status := "cancelled" }] }

/-- The payload of an `invoice_status_changed` event reporting provider
status `sent` for invoice `inv1`. -/
def sentEvt : WebhookData :=
  { invoice_id := some "inv1", invoice_number := none, total := none,
    status := some "sent", payment_date := none }

/-- C2: the claim asserts `paid` and `cancelled` are terminal.  The code
refutes it: `handleInvoiceStatusChange` updates matching orders
unconditionally, so a status-changed event carrying provider status `sent`
(mapped to `pending`) drags a `paid` order — and a `cancelled` order — back
to `pending`. -/
theorem C2_terminal_status_regresses :
    ((handleInvoiceStatusChange dbPaid sentEvt).1.orders.map OrderRow.status = ["pending"]) ∧
    ((handleInvoiceStatusChange dbCancelled sentEvt).1.orders.map OrderRow.status = ["pending"]) := by decide

/-- A structurally valid payment-received body whose invoice id matches no
order in `db0`. -/
def unmatchedBody : WebhookBody :=
  { event_type := some "invoice_payment_received",
    data := some ({ invoice_id := some "inv-unknown",
                    invoice_number := none, total := none,
                    status := none, payment_date := none } : WebhookData) }

/-- A structurally valid payment-received body matching `order1`. -/
def matchedBody : WebhookBody :=
  { event_type := some "invoice_payment_received", data := some paymentEvt }

/-- C3: the claim asserts that an unmatched invoice id is logged, ignored and
still acknowledged with 200.  The code refutes it: the status update matches
zero rows, `.single()` reports that as an error, `handlePaymentReceived`
throws, and the handler answers 500 — the `if (!order)` log-and-ignore branch
is unreachable.  By contrast, failures of the best-effort receipt and
notification inserts (second conjunct) are indeed swallowed and acknowledged
with 200, and the store is left unchanged by the unmatched event (third
conjunct). -/
theorem C3_unmatched_invoice_yields_500 :
    (webhookHandler db0 "POST" (some unmatchedBody) false false).2 = 500 ∧
    (webhookHandler db0 "POST" (some matchedBody) true true).2 = 200 ∧
    (webhookHandler db0 "POST" (some unmatchedBody) false false).1 = db0 := by decide

/-- An order identical to `order1` except that its AUD amount is negative;
its USD and INR amounts are positive and its references and package type are
valid. -/
def audNegOrder : OrderRow := { order1 with amount_aud := -5 }

/-- C7 counterexample: the claim asserts the persistence-layer validation
rejects any order whose per-currency amounts are not all positive.  It does
not: `validate_order_data` tests only `amount_usd` and `amount_inr`, so an
order with a negative `amount_aud` passes. -/
theorem C7_aud_amount_not_checked :
    validate_order_data ["ssl-setup"] [7] audNegOrder = .ok () ∧
    audNegOrder.amount_aud < 0 := by decide

/-- C7 (amended): the persistence-layer validation applied on every order
insert or update accepts an order exactly when its service reference exists,
its client reference exists, its package type is one of basic, standard,
enterprise, and its USD and INR amounts are positive — the AUD amount is not
examined.  Hence every persisted order satisfies the package-type invariant,
both reference invariants, and positivity of the USD and INR amounts. -/
theorem C7_validation_characterisation (serviceIds : List String)
    (clientIds : List Nat) (o : OrderRow) :
    validate_order_data serviceIds clientIds o = .ok () ↔
      (o.service_id ∈ serviceIds ∧ o.client_id ∈ clientIds ∧
       (o.package_type = "basic" ∨ o.package_type = "standard" ∨
        o.package_type = "enterprise") ∧
       0 < o.amount_usd ∧ 0 < o.amount_inr) := by
  unfold validate_order_data
  split_ifs with h1 h2 h3 h4
  · constructor
    · intro hc; exact absurd hc (by simp)
    · rintro ⟨-, -, -, hu, hi⟩
      rcases h4 with h | h
      · exact absurd h (not_le.mpr hu)
      · exact absurd h (not_le.mpr hi)
  · push_neg at h4
    simp only [List.elem_iff] at h1 h2
    exact iff_of_true rfl ⟨h1, h2, h3, h4.1, h4.2⟩
  · simp [h3]
  · simp only [List.elem_iff] at h2
    simp [h2]
  · simp only [List.elem_iff] at h1
    simp [h1]

/-- C8: `createZohoCustomer` attempts creation first; on the provider's
duplicate-resource condition — an HTTP 400 whose message contains
`already exists` — it falls back to the lookup-by-email and returns the
existing contact (the first contact of the provider's email-filtered list),
so a duplicate-customer response is never surfaced as an error and a repeat
purchaser resolves to the already-registered contact. -/
theorem C8_duplicate_customer_fallback (status : Option Nat) (msg : String)
    (c : ZohoContact) (rest : List ZohoContact)
    (hs : status = some 400) (hm : containsSub msg "already exists" = true) :
    createZohoCustomer (.failed status (some msg)) (.ok (c :: rest)) = .ok c := by
  subst hs
  simp [createZohoCustomer, findZohoCustomer, hm]

/-- Witness for C8: the fallback at a concrete duplicate-contact response. -/
theorem C8_duplicate_customer_fallback_witness :
    createZohoCustomer
      (.failed (some 400) (some "This contact already exists in your organization"))
      (.ok [{ contact_id := "42", contact_name := "Jane Roe",
              email := "jane@example.com", company_name := "Acme" }]) =
      .ok { contact_id := "42", contact_name := "Jane Roe",
            email := "jane@example.com", company_name := "Acme" } :=
  C8_duplicate_customer_fallback (some 400)
    "This contact already exists in your organization"
    { contact_id := "42", contact_name := "Jane Roe",
      email := "jane@example.com", company_name := "Acme" } [] rfl (by decide)

/-- A catalog entry whose id is a legacy slug rather than a canonical UUID
and whose display name matches none of the alias rules — the shape the
repository's own migration (20250923105334) produces when it rewrites
service ids to slugs. -/
def strayService : ServiceData :=
  { id := "custom-service", name := "Bespoke Consulting", category := "Misc",
    pricing := { basic := some 5, standard := none, enterprise := none } }

/-- C5 counterexample: the claim asserts `resolve(entry.id) == entry.id` for
every catalog entry.  It fails for an entry whose id does not match the
UUID shape: the resolver then consults only the alias map, which is keyed by
display-name patterns, so an entry with an unmatched name does not resolve
at all. -/
theorem C5_non_uuid_id_not_resolved :
    strayService.id = "custom-service" ∧
    resolveServiceId [strayService] false false "custom-service" = none := by decide

/-- C5 (amended): for every identifier matching the canonical UUID shape,
`resolveServiceId` returns the identifier verbatim exactly when the catalog
query raised no error and an entry with that id exists; the result is always
`verbatim or not-found` (never an alias-mapped substitute, and a datastore
error surfaces as not-found rather than a thrown exception); consequently
`resolve(entry.id) == entry.id` for every catalog entry whose id matches the
UUID shape. -/
theorem C5_uuid_resolution (catalog : List ServiceData) (e1 e2 : Bool)
    (id : String) (h : uuidShape id = true) :
    (resolveServiceId catalog e1 e2 id = some id ↔
      (e1 = false ∧ catalog.any (fun s => s.id == id) = true))
    ∧ (resolveServiceId catalog e1 e2 id = none ∨
       resolveServiceId catalog e1 e2 id = some id)
    ∧ (∀ s ∈ catalog, s.id = id → resolveServiceId catalog false e2 id = some id) := by
  refine ⟨?_, ?_, ?_⟩
  · cases e1 with
    | false =>
      by_cases ha : catalog.any (fun s => s.id == id) = true
      · simp [resolveServiceId, h, ha]
      · simp [resolveServiceId, h, ha]
    | true => simp [resolveServiceId, h]
  · cases e1 with
    | false =>
      by_cases ha : catalog.any (fun s => s.id == id) = true
      · simp [resolveServiceId, h, ha]
      · simp [resolveServiceId, h, ha]
    | true => simp [resolveServiceId, h]
  · intro s hs hsid
    have ha : catalog.any (fun t => t.id == id) = true :=
      List.any_eq_true.mpr ⟨s, hs, by simp [hsid]⟩
    simp [resolveServiceId, h, ha]

/-- A catalog entry with a canonical UUID-shaped id, as seeded by the
repository's service fixtures. -/
def svcSSL : ServiceData :=
  { id := "8c7e77a2-f782-4bec-bad5-0e94cdba035d", name := "SSL & HTTPS Setup",
    category := "Security Services",
    pricing := { basic := some 7, standard := some 10, enterprise := some 25 } }

/-- Witness for C5 at the concrete UUID-shaped id of `svcSSL`. -/
theorem C5_uuid_resolution_witness :
    (resolveServiceId [svcSSL] false false "8c7e77a2-f782-4bec-bad5-0e94cdba035d" =
        some "8c7e77a2-f782-4bec-bad5-0e94cdba035d" ↔
      (false = false ∧
        [svcSSL].any (fun s => s.id == "8c7e77a2-f782-4bec-bad5-0e94cdba035d") = true))
    ∧ (resolveServiceId [svcSSL] false false "8c7e77a2-f782-4bec-bad5-0e94cdba035d" = none ∨
       resolveServiceId [svcSSL] false false "8c7e77a2-f782-4bec-bad5-0e94cdba035d" =
         some "8c7e77a2-f782-4bec-bad5-0e94cdba035d")
    ∧ (∀ s ∈ [svcSSL], s.id = "8c7e77a2-f782-4bec-bad5-0e94cdba035d" →
        resolveServiceId [svcSSL] false false "8c7e77a2-f782-4bec-bad5-0e94cdba035d" =
          some "8c7e77a2-f782-4bec-bad5-0e94cdba035d") :=
  C5_uuid_resolution [svcSSL] false false "8c7e77a2-f782-4bec-bad5-0e94cdba035d" (by decide)

/-- C6: in `calculateCurrencyAmounts`, for every chosen currency and every
state of the rate source, the chosen component is never re-derived through
the converter — it equals the caller-supplied amount (a two-decimal monetary
value, so the final `toFixed(2)` is the identity on it) — while each of the
two non-chosen components is exactly the conversion of that chosen-currency
amount into the other currency (then rounded to two decimals); and when the
rate source is unavailable the computation returns the original amount for
all three currencies instead of raising an exception. -/
theorem C6_chosen_currency_authoritative (a : ℚ) (h : round2 a = a) :
    (∀ rates, (calculateCurrencyAmounts rates a "USD").usd = a
      ∧ (calculateCurrencyAmounts rates a "USD").inr =
          round2 (convertCurrency rates a "USD" "INR")
      ∧ (calculateCurrencyAmounts rates a "USD").aud =
          round2 (convertCurrency rates a "USD" "AUD"))
    ∧ (∀ rates, (calculateCurrencyAmounts rates a "INR").inr = a
      ∧ (calculateCurrencyAmounts rates a "INR").usd =
          round2 (convertCurrency rates a "INR" "USD")
      ∧ (calculateCurrencyAmounts rates a "INR").aud =
          round2 (convertCurrency rates a "INR" "AUD"))
    ∧ (∀ rates, (calculateCurrencyAmounts rates a "AUD").aud = a
      ∧ (calculateCurrencyAmounts rates a "AUD").usd =
          round2 (convertCurrency rates a "AUD" "USD")
      ∧ (calculateCurrencyAmounts rates a "AUD").inr =
          round2 (convertCurrency rates a "AUD" "INR"))
    ∧ (∀ currency, calculateCurrencyAmounts none a currency =
        { usd := a, inr := a, aud := a }) := by
  refine ⟨?_, ?_, ?_, ?_⟩
  · intro rates
    refine ⟨?_, ?_, ?_⟩ <;> simp [calculateCurrencyAmounts, h]
  · intro rates
    refine ⟨?_, ?_, ?_⟩ <;> simp [calculateCurrencyAmounts, h]
  · intro rates
    refine ⟨?_, ?_, ?_⟩ <;> simp [calculateCurrencyAmounts, h]
  · intro currency
    by_cases h1 : currency = "USD"
    · simp [calculateCurrencyAmounts, convertCurrency, h1, h]
    · by_cases h2 : currency = "INR"
      · simp [calculateCurrencyAmounts, convertCurrency, h1, h2, h]
      · by_cases h3 : currency = "AUD"
        · simp [calculateCurrencyAmounts, convertCurrency, h1, h2, h3, h]
        · simp [calculateCurrencyAmounts, convertCurrency, h1, h2, h3, h]

/-- Rounding to two decimals is the identity on the whole amount 100. -/
theorem round2_at_100 : round2 100 = 100 := by
  norm_num [round2]

/-- Witness for C6 at the spec scenario amount of 100. -/
theorem C6_chosen_currency_authoritative_witness :
    (∀ rates, (calculateCurrencyAmounts rates 100 "USD").usd = 100
      ∧ (calculateCurrencyAmounts rates 100 "USD").inr =
          round2 (convertCurrency rates 100 "USD" "INR")
      ∧ (calculateCurrencyAmounts rates 100 "USD").aud =
          round2 (convertCurrency rates 100 "USD" "AUD"))
    ∧ (∀ rates, (calculateCurrencyAmounts rates 100 "INR").inr = 100
      ∧ (calculateCurrencyAmounts rates 100 "INR").usd =
          round2 (convertCurrency rates 100 "INR" "USD")
      ∧ (calculateCurrencyAmounts rates 100 "INR").aud =
          round2 (convertCurrency rates 100 "INR" "AUD"))
    ∧ (∀ rates, (calculateCurrencyAmounts rates 100 "AUD").aud = 100
      ∧ (calculateCurrencyAmounts rates 100 "AUD").usd =
          round2 (convertCurrency rates 100 "AUD" "USD")
      ∧ (calculateCurrencyAmounts rates 100 "AUD").inr =
          round2 (convertCurrency rates 100 "AUD" "INR"))
    ∧ (∀ currency, calculateCurrencyAmounts none 100 currency =
        { usd := 100, inr := 100, aud := 100 }) :=
  C6_chosen_currency_authoritative 100 round2_at_100

/-- C4: when the resolved service's pricing has no entry for the requested
package type, `createPaymentIntent` fails with the invalid-package error
before reaching the order insert: the order store is unchanged and no Zoho
request is issued. -/
theorem C4_invalid_package_no_insert (env : PIEnv) (orders : List OrderRow)
    (tid : String) (newOrderId : Nat) (serviceIdentifier packageType : String)
    (totalPrice : ℚ) (currency : String) (quantity : ℚ)
    (user : UserRec) (ts sid : String) (svc : ServiceData)
    (hue : env.userErr = false) (hu : env.user = some user)
    (hv : user.email_confirmed_at = some ts)
    (hr : resolveServiceId env.catalog env.uuidQueryErr env.listErr serviceIdentifier = some sid)
    (hg : getServiceById env.catalog sid = some svc)
    (hp : pricingGet svc.pricing packageType = none) :
    (createPaymentIntent env orders tid newOrderId serviceIdentifier packageType
        totalPrice currency quantity).outcome =
      .error ("Package type \"" ++ packageType ++ "\" not available for " ++ svc.name)
    ∧ (createPaymentIntent env orders tid newOrderId serviceIdentifier packageType
        totalPrice currency quantity).orders = orders
    ∧ (createPaymentIntent env orders tid newOrderId serviceIdentifier packageType
        totalPrice currency quantity).zohoRequest = none := by
  refine ⟨?_, ?_, ?_⟩ <;>
    simp [createPaymentIntent, hue, hu, hv, hr, hg, hp]

/-- The authenticated, email-verified purchaser of the scenarios. -/
def userJane : UserRec :=
  { id := 7, email := "jane@example.com",
    email_confirmed_at := some "2025-01-01T00:00:00Z" }

/-- The purchaser's client profile row. -/
def clientJane : ClientRec :=
  { id := 7, name := "Jane Roe", email := "jane@example.com",
    phone := none, company := none }

/-- A successful Zoho integration response. -/
def zohoOkRes : ZohoRes :=
  { invoice_id := "zinv-1", invoice_number := "INV-1700000000000",
    payment_url := "https://invoice.zoho.in/invoices/zinv-1/payment",
    total := 10, status := "sent", customer_id := "zcust-1" }

/-- A collaborator environment in which every external step succeeds. -/
def envOk : PIEnv :=
  { userErr := false, user := some userJane, catalog := [svcSSL],
    uuidQueryErr := false, listErr := false, clientErr := false,
    clientProfile := some clientJane, rates := none,
    orderInsertErr := none, zoho := .ok zohoOkRes, updateErr := false }

/-- Witness for C4: requesting the nonexistent tier `premium` of the SSL
service. -/
theorem C4_invalid_package_no_insert_witness :
    (createPaymentIntent envOk [] "txn-1" 42 "8c7e77a2-f782-4bec-bad5-0e94cdba035d"
        "premium" 10 "USD" 1).outcome =
      .error ("Package type \"" ++ "premium" ++ "\" not available for " ++ svcSSL.name)
    ∧ (createPaymentIntent envOk [] "txn-1" 42 "8c7e77a2-f782-4bec-bad5-0e94cdba035d"
        "premium" 10 "USD" 1).orders = []
    ∧ (createPaymentIntent envOk [] "txn-1" 42 "8c7e77a2-f782-4bec-bad5-0e94cdba035d"
        "premium" 10 "USD" 1).zohoRequest = none :=
  C4_invalid_package_no_insert envOk [] "txn-1" 42
    "8c7e77a2-f782-4bec-bad5-0e94cdba035d" "premium" 10 "USD" 1
    userJane "2025-01-01T00:00:00Z" "8c7e77a2-f782-4bec-bad5-0e94cdba035d" svcSSL
    rfl rfl rfl (by decide) (by decide) rfl

/-- C9: when every step through invoice creation succeeds but the linking
update of step 8 fails, `createPaymentIntent` still returns the successful
payment intent (the invoice is not rolled back), and the order store ends
with the order exactly as the insert created it: status `pending`, linking
fields unset, all other fields unchanged. -/
theorem C9_link_failure_best_effort (env : PIEnv) (orders : List OrderRow)
    (tid : String) (newOrderId : Nat) (serviceIdentifier packageType : String)
    (totalPrice : ℚ) (currency : String) (quantity : ℚ)
    (user : UserRec) (ts sid : String) (svc : ServiceData) (p : ℚ)
    (client : ClientRec) (z : ZohoRes)
    (hue : env.userErr = false) (hu : env.user = some user)
    (hv : user.email_confirmed_at = some ts)
    (hr : resolveServiceId env.catalog env.uuidQueryErr env.listErr serviceIdentifier = some sid)
    (hg : getServiceById env.catalog sid = some svc)
    (hp : pricingGet svc.pricing packageType = some p) (hp0 : p ≠ 0)
    (hc : env.clientErr = false) (hcp : env.clientProfile = some client)
    (hoi : env.orderInsertErr = none) (hz : env.zoho = .ok z)
    (hup : env.updateErr = true) :
    (createPaymentIntent env orders tid newOrderId serviceIdentifier packageType
        totalPrice currency quantity).outcome =
      .ok { invoice_id := z.invoice_id, invoice_number := z.invoice_number,
            payment_url := z.payment_url, total := z.total, status := z.status,
            customer_id := z.customer_id, transaction_id := tid }
    ∧ (createPaymentIntent env orders tid newOrderId serviceIdentifier packageType
        totalPrice currency quantity).orders =
        orders ++ [newOrderRow newOrderId user.id sid packageType
          (calculateCurrencyAmounts env.rates totalPrice currency) currency]
    ∧ (newOrderRow newOrderId user.id sid packageType
        (calculateCurrencyAmounts env.rates totalPrice currency) currency).status = "pending"
    ∧ (newOrderRow newOrderId user.id sid packageType
        (calculateCurrencyAmounts env.rates totalPrice currency) currency).zoho_invoice_id = none
    ∧ (newOrderRow newOrderId user.id sid packageType
        (calculateCurrencyAmounts env.rates totalPrice currency) currency).zoho_customer_id = none := by
  refine ⟨?_, ?_, rfl, rfl, rfl⟩ <;>
    simp [createPaymentIntent, hue, hu, hv, hr, hg, hp, hp0, hc, hcp, hoi, hz, hup]

/-- The environment of `envOk` with a failing linking update (step 8). -/
def envLinkFail : PIEnv := { envOk with updateErr := true }

/-- Witness for C9: a standard SSL purchase whose linking update fails. -/
theorem C9_link_failure_best_effort_witness :
    (createPaymentIntent envLinkFail [] "txn-2" 42
        "8c7e77a2-f782-4bec-bad5-0e94cdba035d" "standard" 10 "USD" 1).outcome =
      .ok { invoice_id := zohoOkRes.invoice_id,
            invoice_number := zohoOkRes.invoice_number,
            payment_url := zohoOkRes.payment_url, total := zohoOkRes.total,
            status := zohoOkRes.status, customer_id := zohoOkRes.customer_id,
            transaction_id := "txn-2" }
    ∧ (createPaymentIntent envLinkFail [] "txn-2" 42
        "8c7e77a2-f782-4bec-bad5-0e94cdba035d" "standard" 10 "USD" 1).orders =
        [] ++ [newOrderRow 42 userJane.id "8c7e77a2-f782-4bec-bad5-0e94cdba035d"
          "standard" (calculateCurrencyAmounts envLinkFail.rates 10 "USD") "USD"]
    ∧ (newOrderRow 42 userJane.id "8c7e77a2-f782-4bec-bad5-0e94cdba035d"
        "standard" (calculateCurrencyAmounts envLinkFail.rates 10 "USD") "USD").status = "pending"
    ∧ (newOrderRow 42 userJane.id "8c7e77a2-f782-4bec-bad5-0e94cdba035d"
        "standard" (calculateCurrencyAmounts envLinkFail.rates 10 "USD") "USD").zoho_invoice_id = none
    ∧ (newOrderRow 42 userJane.id "8c7e77a2-f782-4bec-bad5-0e94cdba035d"
        "standard" (calculateCurrencyAmounts envLinkFail.rates 10 "USD") "USD").zoho_customer_id = none :=
  C9_link_failure_best_effort envLinkFail [] "txn-2" 42
    "8c7e77a2-f782-4bec-bad5-0e94cdba035d" "standard" 10 "USD" 1
    userJane "2025-01-01T00:00:00Z" "8c7e77a2-f782-4bec-bad5-0e94cdba035d" svcSSL 10
    clientJane zohoOkRes
    rfl rfl rfl (by decide) (by decide) rfl (by decide) rfl rfl rfl rfl rfl

/-- The chosen-currency amount on the freshly inserted order row equals the
caller-supplied amount rounded to two decimals, whatever the chosen currency
string and the state of the rate source: `calculateCurrencyAmounts` never
converts the chosen component, and any unrecognised currency falls through to
the (equally unconverted) AUD column. -/
theorem chosenUnitPrice_calc (rates : Option (String → String → ℚ)) (a : ℚ)
    (c : String) (n uid : Nat) (sid pt : String) :
    chosenUnitPrice (newOrderRow n uid sid pt
      (calculateCurrencyAmounts rates a c) c) = round2 a := by
  unfold chosenUnitPrice newOrderRow calculateCurrencyAmounts
  by_cases h1 : c = "USD"
  · simp [h1]
  · by_cases h2 : c = "INR"
    · simp [h1, h2]
    · by_cases h3 : c = "AUD"
      · simp [h1, h2, h3]
      · simp [h1, h2, h3]

/-- The linking update touches only the two Zoho reference columns, so the
chosen-currency amount is unchanged by it. -/
theorem chosenUnitPrice_link (o : OrderRow) (a b : Option String) :
    chosenUnitPrice { o with zoho_invoice_id := a, zoho_customer_id := b } =
      chosenUnitPrice o := rfl

/-- The linking update is the identity on a store in which the fresh row id
is not yet used. -/
theorem map_link_fresh_id (orders : List OrderRow) (newOrderId : Nat)
    (zi zc : Option String) (hfresh : ∀ o ∈ orders, o.id ≠ newOrderId) :
    orders.map (fun o => if o.id = newOrderId then
      { o with zoho_invoice_id := zi, zoho_customer_id := zc } else o) = orders := by
  induction orders with
  | nil => rfl
  | cons a t ih =>
    rw [List.map_cons, if_neg (hfresh a (by simp)),
      ih (fun o ho => hfresh o (by simp [ho]))]

/-- C10: on every successful run, the amount persisted in the order's
chosen-currency column and the amount sent to the invoicing provider both
equal the caller-supplied `totalPrice` rounded to two decimals: the catalog
price `p` is only required to exist (be a truthy pricing entry) and appears
nowhere in the conclusion, the single line item carries rate
`round2 totalPrice / quantity` with `item_total = round2 totalPrice`, and the
invoiced total is therefore independent of both the catalog price and the
quantity. -/
theorem C10_invoiced_total_from_caller (env : PIEnv) (orders : List OrderRow)
    (tid : String) (newOrderId : Nat) (serviceIdentifier packageType : String)
    (totalPrice : ℚ) (currency : String) (quantity : ℚ)
    (user : UserRec) (ts sid : String) (svc : ServiceData) (p : ℚ)
    (client : ClientRec) (z : ZohoRes)
    (hue : env.userErr = false) (hu : env.user = some user)
    (hv : user.email_confirmed_at = some ts)
    (hr : resolveServiceId env.catalog env.uuidQueryErr env.listErr serviceIdentifier = some sid)
    (hg : getServiceById env.catalog sid = some svc)
    (hp : pricingGet svc.pricing packageType = some p) (hp0 : p ≠ 0)
    (hc : env.clientErr = false) (hcp : env.clientProfile = some client)
    (hoi : env.orderInsertErr = none) (hz : env.zoho = .ok z)
    (hfresh : ∀ o ∈ orders, o.id ≠ newOrderId) :
    (createPaymentIntent env orders tid newOrderId serviceIdentifier packageType
        totalPrice currency quantity).zohoRequest =
      some { customerName := client.name, customerEmail := client.email,
             serviceItems := [{ serviceId := svc.id, serviceName := svc.name,
                                packageType := packageType, quantity := quantity,
                                unitPrice := round2 totalPrice / quantity,
                                totalPrice := round2 totalPrice }],
             currency := currency }
    ∧ toLineItems [{ serviceId := svc.id, serviceName := svc.name,
                     packageType := packageType, quantity := quantity,
                     unitPrice := round2 totalPrice / quantity,
                     totalPrice := round2 totalPrice }] =
      [{ name := svc.name,
         description := svc.name ++ " - " ++ packageType ++
           " Package (Quantity: " ++ toString quantity ++ ")",
         rate := round2 totalPrice / quantity, quantity := quantity,
         item_total := round2 totalPrice }]
    ∧ ∃ r, (createPaymentIntent env orders tid newOrderId serviceIdentifier
          packageType totalPrice currency quantity).orders = orders ++ [r]
        ∧ chosenUnitPrice r = round2 totalPrice
        ∧ r.currency = currency ∧ r.status = "pending" := by
  refine ⟨?_, ?_, ?_⟩
  · simp [createPaymentIntent, hue, hu, hv, hr, hg, hp, hp0, hc, hcp, hoi, hz,
      chosenUnitPrice_calc]
    exact ⟨rfl, rfl⟩
  · simp [toLineItems]
  · by_cases hup : env.updateErr = true
    · refine ⟨newOrderRow newOrderId user.id sid packageType
        (calculateCurrencyAmounts env.rates totalPrice currency) currency, ?_,
        chosenUnitPrice_calc env.rates totalPrice currency newOrderId user.id sid packageType,
        rfl, rfl⟩
      simp [createPaymentIntent, hue, hu, hv, hr, hg, hp, hp0, hc, hcp, hoi, hz, hup]
    · have hupf : env.updateErr = false := by
        exact Bool.eq_false_iff.mpr (fun hcon => hup hcon)
      have hmap := map_link_fresh_id orders newOrderId
        (some z.invoice_id) (some z.customer_id) hfresh
      refine ⟨{ newOrderRow newOrderId user.id sid packageType
          (calculateCurrencyAmounts env.rates totalPrice currency) currency with
          zoho_invoice_id := some z.invoice_id,
          zoho_customer_id := some z.customer_id }, ?_, ?_, rfl, rfl⟩
      · simp [createPaymentIntent, hue, hu, hv, hr, hg, hp, hp0, hc, hcp, hoi, hz,
          hupf, newOrderRow, hmap]
      · rw [chosenUnitPrice_link]
        exact chosenUnitPrice_calc env.rates totalPrice currency newOrderId user.id sid packageType

/-- Witness for C10: the standard SSL purchase of the spec scenario (total
10 USD, quantity 1) against the all-success environment. -/
theorem C10_invoiced_total_from_caller_witness :
    (createPaymentIntent envOk [] "txn-3" 42
        "8c7e77a2-f782-4bec-bad5-0e94cdba035d" "standard" 10 "USD" 1).zohoRequest =
      some { customerName := clientJane.name, customerEmail := clientJane.email,
             serviceItems := [{ serviceId := svcSSL.id, serviceName := svcSSL.name,
                                packageType := "standard", quantity := 1,
                                unitPrice := round2 10 / 1,
                                totalPrice := round2 10 }],
             currency := "USD" }
    ∧ toLineItems [{ serviceId := svcSSL.id, serviceName := svcSSL.name,
                     packageType := "standard", quantity := 1,
                     unitPrice := round2 10 / 1, totalPrice := round2 10 }] =
      [{ name := svcSSL.name,
         description := svcSSL.name ++ " - " ++ "standard" ++
           " Package (Quantity: " ++ toString (1 : ℚ) ++ ")",
         rate := round2 10 / 1, quantity := 1, item_total := round2 10 }]
    ∧ ∃ r, (createPaymentIntent envOk [] "txn-3" 42
          "8c7e77a2-f782-4bec-bad5-0e94cdba035d" "standard" 10 "USD" 1).orders =
          [] ++ [r]
        ∧ chosenUnitPrice r = round2 10
        ∧ r.currency = "USD" ∧ r.status = "pending" :=
  C10_invoiced_total_from_caller envOk [] "txn-3" 42
    "8c7e77a2-f782-4bec-bad5-0e94cdba035d" "standard" 10 "USD" 1
    userJane "2025-01-01T00:00:00Z" "8c7e77a2-f782-4bec-bad5-0e94cdba035d" svcSSL 10
    clientJane zohoOkRes
    rfl rfl rfl (by decide) (by decide) rfl (by decide) rfl rfl rfl rfl
    (by simp)
